import Mathlib

/-! Shallow embedding of the anonymous-relay bot: the database layer
(src/database.py), the admin premium command
(src/telegram_bot_fixed.py, method _admin_premium_encrypted), the inbound
text-message relay path (src/telegram_bot_fixed.py, method
_handle_new_message) and the per-user rate limiter
(src/api_protector.py, method _check_rate_limit).

Conventions of the embedding:
* timestamps (datetime values / ISO strings in SQLite) are integers
  counting seconds; datetime.now() becomes an explicit now : Int argument
  and timedelta(days = d) becomes d * 86400 seconds;
* a SQLite table is a list of rows in rowid (insertion) order; fetchone
  on a plain SELECT ... WHERE is List.find?, UPDATE ... WHERE maps the
  update over the matching rows, DELETE ... WHERE filters them out,
  INSERT appends;
* the program uses one shared connection and reads see its own
  uncommitted writes; the only rollbacks sit in except handlers whose
  exceptions cannot arise for the embedded statements (no constraint on
  messages.channel_message_id can fire), so every executed statement is
  applied to the state immediately, whether or not the surrounding
  Python path reaches conn.commit();
* premium_until is stored already parsed, so the except branches around
  datetime.fromisoformat are unreachable for values the program itself
  writes (it only ever writes isoformat output);
* columns never read nor written by the embedded operations
  (payment_history, emoji_unique, emoji_lock, nickname) are omitted from
  the row type.
-/

namespace AnonBot

/-- A row of the users table of src/database.py (create_tables). -/
structure UserRow where
  user_id : Nat
  username : String
  first_name : String
  last_name : String
  is_banned : Bool
  registration_date : Option Int
  is_premium : Bool
  custom_emoji : String
  premium_until : Option Int
  emoji_type : String
  message_count : Nat
  edit_count : Nat
  delete_count : Nat
  last_activity : Option Int
  deriving DecidableEq, Repr

/-- A row of the messages table (the message ledger). -/
structure MessageRow where
  user_id : Nat
  channel_message_id : Nat
  text : String
  timestamp : Int
  reply_to : Option Nat
  is_reply : Bool
  emoji_used : Option String
  is_edited : Bool
  is_deleted : Bool
  edit_count : Nat
  last_edit_time : Option Int
  deriving DecidableEq, Repr

/-- A row of the emoji_reservations table: emoji is the PRIMARY KEY and
user_id is UNIQUE in the schema. -/
structure Reservation where
  emoji : String
  user_id : Nat
  reserved_at : Int
  deriving DecidableEq, Repr

/-- A row of the message_edits audit table. -/
structure EditRow where
  message_id : Nat
  old_text : String
  new_text : String
  user_id : Nat
  edit_time : Int
  deriving DecidableEq, Repr

/-- A row of the replies table. -/
structure ReplyRow where
  original_message_id : Nat
  reply_message_id : Nat
  user_id : Nat
  timestamp : Int
  deriving DecidableEq, Repr

/-- The mutable database state reachable from the embedded operations. -/
structure DB where
  users : List UserRow
  emoji_reservations : List Reservation
  messages : List MessageRow
  replies : List ReplyRow
  message_edits : List EditRow
  deriving DecidableEq, Repr

/-- PREMIUM_EMOJIS: imported by src/database.py from config.py, which is
not among the source files; src/core_protected.py carries the
repository list of the same name, reproduced here. The list only decides
the cosmetic emoji_type column and no claim depends on its contents. -/
def PREMIUM_EMOJIS : List String :=
  ["🔥", "✨", "🌟", "💎", "🚀", "🎯", "🏆", "🎨", "🦄", "🌈",
   "⭐", "💫", "☄️", "🎭", "🎪", "🎮", "🎲", "🎵", "🎶", "🎸",
   "🏅", "🎖️", "🥇", "🥈", "🥉", "⚡", "💥", "🌠", "🌌", "🌙",
   "☀️", "🌞", "🪐", "🌊", "🌸", "🌺", "🌹", "🍀", "🎄", "🎁",
   "🎀", "🎊", "🎉", "🕹️", "🎬", "🎥", "📽️", "🎞️", "🎤", "🎧"]

/-- UPDATE users SET ... WHERE user_id = u, applied row-wise. -/
def updateUsers (db : DB) (u : Nat) (f : UserRow → UserRow) : DB :=
  { db with users := db.users.map (fun r => if r.user_id == u then f r else r) }

/-- SET is_premium = 0, premium_until = NULL. -/
def clearPremium : UserRow → UserRow := fun r =>
  { r with is_premium := false, premium_until := none }

/-- SET custom_emoji = ?, emoji_type = ?. -/
def applyEmoji (emoji etype : String) : UserRow → UserRow := fun r =>
  { r with custom_emoji := emoji, emoji_type := etype }

/-- SET is_premium = 1, premium_until = ?, emoji_type = "premium". -/
def setPremiumUntil (t : Int) : UserRow → UserRow := fun r =>
  { r with is_premium := true, premium_until := some t,
           emoji_type := "premium" }

/-- SET edit_count = edit_count + 1, last_activity = ? on users. -/
def bumpEditCount (now : Int) : UserRow → UserRow := fun r =>
  { r with edit_count := r.edit_count + 1, last_activity := some now }

/-- SET delete_count = delete_count + 1, last_activity = ? on users. -/
def bumpDeleteCount (now : Int) : UserRow → UserRow := fun r =>
  { r with delete_count := r.delete_count + 1, last_activity := some now }

/-- The row effect of UPDATE messages SET is_deleted = 1 WHERE
channel_message_id = mid. -/
def markDeleted (mid : Nat) : MessageRow → MessageRow := fun r =>
  if r.channel_message_id == mid then { r with is_deleted := true } else r

/-- The row effect of the UPDATE of edit_message: new text, edited flag,
edit counter and edit time on every row keyed mid. -/
def applyEdit (mid : Nat) (new_text : String) (now : Int) :
    MessageRow → MessageRow := fun r =>
  if r.channel_message_id == mid then
    { r with text := new_text, is_edited := true,
             edit_count := r.edit_count + 1, last_edit_time := some now }
  else r

/-- Database.get_user_info: SELECT * FROM users WHERE user_id = ? (fetchone). -/
def get_user_info (db : DB) (u : Nat) : Option UserRow :=
  db.users.find? (fun r => r.user_id == u)

/-- The INSERT row of register_user: column defaults of the schema plus
the values the INSERT lists. -/
def freshUser (u : Nat) (username first_name last_name : String)
    (now : Int) : UserRow :=
  { user_id := u, username := username, first_name := first_name,
    last_name := last_name, is_banned := false,
    registration_date := some now, is_premium := false,
    custom_emoji := "📨", premium_until := none,
    emoji_type := "standard", message_count := 0, edit_count := 0,
    delete_count := 0, last_activity := some now }

/-- Database.register_user: upsert of identity fields. -/
def register_user (db : DB) (u : Nat) (username first_name last_name : String)
    (now : Int) : DB :=
  if (get_user_info db u).isSome then
    updateUsers db u (fun r =>
      { r with username := username, first_name := first_name,
               last_name := last_name, last_activity := some now })
  else
    { db with users := db.users ++
        [freshUser u username first_name last_name now] }

/-- Database.is_user_premium: returns the premium verdict and the state
after the lazy expiry sweep (the check itself clears an expired premium
and deletes the reservations of the user). -/
def is_user_premium (db : DB) (u : Nat) (now : Int) : Bool × DB :=
  match get_user_info db u with
  | none => (false, db)
  | some usr =>
    match usr.premium_until with
    | some pu =>
      if now > pu then
        let db := updateUsers db u clearPremium
        let db := { db with emoji_reservations :=
          db.emoji_reservations.filter (fun r => !(r.user_id == u)) }
        (false, db)
      else (usr.is_premium, db)
    | none => (usr.is_premium, db)

/-- Database.get_user_emoji. -/
def get_user_emoji (db : DB) (u : Nat) : String :=
  match get_user_info db u with
  | none => "📨"
  | some usr => if usr.custom_emoji == "" then "📨" else usr.custom_emoji

/-- Database.log_message: unconditional INSERT into messages (the table
has an autoincrement primary key and no uniqueness constraint on
channel_message_id), message_count bump, and a replies row when the
message is a reply. -/
def log_message (db : DB) (u cmid : Nat) (text : String)
    (reply_to : Option Nat) (emoji_used : Option String) (now : Int) : DB :=
  let row : MessageRow :=
    { user_id := u, channel_message_id := cmid, text := text,
      timestamp := now, reply_to := reply_to, is_reply := reply_to.isSome,
      emoji_used := emoji_used, is_edited := false, is_deleted := false,
      edit_count := 0, last_edit_time := none }
  let db := { db with messages := db.messages ++ [row] }
  let db := updateUsers db u (fun r =>
    { r with message_count := r.message_count + 1, last_activity := some now })
  match reply_to with
  | some orig =>
    let rrow : ReplyRow :=
      { original_message_id := orig, reply_message_id := cmid,
        user_id := u, timestamp := now }
    { db with replies := db.replies ++ [rrow] }
  | none => db

/-- Database.get_message_owner: first matching row of messages. -/
def get_message_owner (db : DB) (mid : Nat) : Option Nat :=
  (db.messages.find? (fun r => r.channel_message_id == mid)).map (fun r => r.user_id)

/-- Database.is_message_owner. -/
def is_message_owner (db : DB) (u mid : Nat) : Bool :=
  get_message_owner db mid == some u

/-- SELECT text FROM messages WHERE channel_message_id = ? (fetchone),
as read by Database.edit_message. -/
def message_text (db : DB) (mid : Nat) : Option String :=
  (db.messages.find? (fun r => r.channel_message_id == mid)).map (fun r => r.text)

/-- Database.edit_message: owner gate, no-op on identical text, else
audit row + row update + user edit counter. It never consults
is_deleted. -/
def edit_message (db : DB) (u mid : Nat) (new_text : String) (now : Int) :
    Bool × DB :=
  if !(is_message_owner db u mid) then (false, db)
  else
    match message_text db mid with
    | none => (false, db)
    | some old_text =>
      if old_text == new_text then (true, db)
      else
        let erow : EditRow :=
          { message_id := mid, old_text := old_text, new_text := new_text,
            user_id := u, edit_time := now }
        let db := { db with message_edits := db.message_edits ++ [erow] }
        let db := { db with
          messages := db.messages.map (applyEdit mid new_text now) }
        let db := updateUsers db u (bumpEditCount now)
        (true, db)

/-- Database.delete_message: owner gate, then soft delete + user delete
counter. It never consults is_deleted either. -/
def delete_message (db : DB) (u mid : Nat) (now : Int) : Bool × DB :=
  if !(is_message_owner db u mid) then (false, db)
  else
    let db := { db with messages := db.messages.map (markDeleted mid) }
    let db := updateUsers db u (bumpDeleteCount now)
    (true, db)

/-- Database.add_premium_days: the base is the stored premium_until when
one is recorded (even when it lies in the past), else now. -/
def add_premium_days (db : DB) (u : Nat) (days : Int) (now : Int) : DB :=
  let new_until : Int :=
    match get_user_info db u with
    | some usr =>
      match usr.premium_until with
      | some cu => cu + days * 86400
      | none => now + days * 86400
    | none => now + days * 86400
  updateUsers db u (setPremiumUntil new_until)

/-- TelegramBot._admin_premium_encrypted (src/telegram_bot_fixed.py):
unknown user is reported without mutation; days <= 0 revokes premium and
deletes the reservations of the user; days > 0 delegates to
add_premium_days. -/
def admin_premium (db : DB) (u : Nat) (days : Int) (now : Int) : DB :=
  match get_user_info db u with
  | none => db
  | some _ =>
    if days ≤ 0 then
      let db := updateUsers db u clearPremium
      { db with emoji_reservations :=
          db.emoji_reservations.filter (fun r => !(r.user_id == u)) }
    else add_premium_days db u days now

/-- Database.get_reserved_emoji_owner. -/
def ownerOf (db : DB) (emoji : String) : Option Nat :=
  (db.emoji_reservations.find? (fun r => r.emoji == emoji)).map (fun r => r.user_id)

/-- Database.get_reserved_emoji_for_user. -/
def reservationOf (db : DB) (u : Nat) : Option String :=
  (db.emoji_reservations.find? (fun r => r.user_id == u)).map (fun r => r.emoji)

/-- Database.set_user_emoji_with_reservation with the default
emoji_type = None argument (as all call sites pass it): a non-premium
caller just gets the emoji set; a premium caller first loses any prior
reservation (DELETE ... WHERE user_id), then the conflict check runs,
and only then the new reservation is inserted (INSERT OR REPLACE, which
removes rows clashing on either unique column before appending). -/
def set_user_emoji_with_reservation (db : DB) (u : Nat) (emoji : String)
    (now : Int) : Bool × DB :=
  let etype := if PREMIUM_EMOJIS.contains emoji then "premium" else "standard"
  let res := is_user_premium db u now
  let db := res.snd
  if !res.fst then
    (true, updateUsers db u (applyEmoji emoji etype))
  else
    let db := { db with emoji_reservations :=
      db.emoji_reservations.filter (fun r => !(r.user_id == u)) }
    if (db.emoji_reservations.find? (fun r => r.emoji == emoji)).isSome then
      (false, db)
    else
      let newRes : Reservation :=
        { emoji := emoji, user_id := u, reserved_at := now }
      let kept := db.emoji_reservations.filter
        (fun r => !(r.emoji == emoji || r.user_id == u))
      let db := { db with emoji_reservations := kept ++ [newRes] }
      (true, updateUsers db u (applyEmoji emoji etype))

/-- validate_emoji of src/utils.py (len counts code points, as
String.length does; len(emoji.strip()) == 0 holds exactly when every
character is whitespace, which is how the strip test is embedded). -/
def validate_emoji (emoji : String) : Bool :=
  if emoji == "" || emoji.toList.all (fun c => c.isWhitespace) then false
  else if emoji.length > 4 then false
  else true

/-- The schema constraints of emoji_reservations: emoji is the PRIMARY
KEY and user_id is declared UNIQUE, so each appears at most once. -/
def ReservationsWF (rs : List Reservation) : Prop :=
  (rs.map (fun r => r.emoji)).Nodup ∧ (rs.map (fun r => r.user_id)).Nodup

instance (rs : List Reservation) : Decidable (ReservationsWF rs) := by
  unfold ReservationsWF; infer_instance

/-- APIProtector._check_rate_limit (src/api_protector.py) for one user:
request_history is a per-user dict, absent key meaning the empty
history; entries older than 60 seconds are pruned, then the long-window
cap (30 per minute) and the burst condition (at least 5 recent entries
whose oldest is less than 5 seconds old) are tested; the timestamp is
appended only on admission. -/
def check_rate_limit (history : List Int) (now : Int) : Bool × List Int :=
  let h := history.filter (fun t => now - t < 60)
  if 30 ≤ h.length then (false, h)
  else if 5 ≤ h.length ∧ now - h.headD 0 < 5 then (false, h)
  else (true, h ++ [now])

/-- Folds check_rate_limit over a sequence of call times of one user,
collecting the admission verdicts (in call order) and the final history. -/
def runCalls (times : List Int) (history : List Int) : List Bool × List Int :=
  match times with
  | [] => ([], history)
  | t :: ts =>
    let step := check_rate_limit history t
    let rest := runCalls ts step.snd
    (step.fst :: rest.fst, rest.snd)

/-- The message.text branch of TelegramBot._handle_new_message, from the
point where the admission guards (spam cooldown, pending-reply routing)
have passed: register_user runs first, then the gateway send; the
outcome of the external bot.send_message call is the explicit argument
send (error = the call raised, jumping to the except handler before any
logging; ok emid = it returned a message with id emid). Only on success
does log_message run, followed by the two is_user_premium checks that
build the keyboard and the reply text. -/
def handle_new_message_text (db : DB) (u : Nat)
    (username first_name last_name : String) (text : String)
    (send : Except Unit Nat) (now : Int) : DB :=
  let db := register_user db u username first_name last_name now
  match send with
  | .error _ => db
  | .ok emid =>
    let emoji := get_user_emoji db u
    let db := log_message db u emid text none (some emoji) now
    let db := (is_user_premium db u now).snd
    let db := (is_user_premium db u now).snd
    db

/-- message_count of a user as observed through get_user_info, an absent
row counting as zero. -/
def userMessageCount (db : DB) (u : Nat) : Nat :=
  match get_user_info db u with
  | none => 0
  | some usr => usr.message_count

/-- delete_count of a user, an absent row counting as zero. -/
def userDeleteCount (db : DB) (u : Nat) : Nat :=
  match get_user_info db u with
  | none => 0
  | some usr => usr.delete_count

/-- Number of ledger rows recorded under one channel_message_id. -/
def msgRowCount (db : DB) (cmid : Nat) : Nat :=
  (db.messages.filter (fun r => r.channel_message_id == cmid)).length

/-! ### Concrete fixtures for the closed instances -/

/-- Concrete user row for the closed instances. -/
def sampleUser (u : Nat) (prem : Bool) (pu : Option Int) (emoji : String) :
    UserRow :=
  { user_id := u, username := "", first_name := "", last_name := "",
    is_banned := false, registration_date := some 0, is_premium := prem,
    custom_emoji := emoji, premium_until := pu, emoji_type := "standard",
    message_count := 0, edit_count := 0, delete_count := 0,
    last_activity := none }

/-- Concrete ledger row for the closed instances. -/
def sampleMsg (u cmid : Nat) (text : String) : MessageRow :=
  { user_id := u, channel_message_id := cmid, text := text, timestamp := 0,
    reply_to := none, is_reply := false, emoji_used := none,
    is_edited := false, is_deleted := false, edit_count := 0,
    last_edit_time := none }

/-- Concrete database: user 1 (plain) owns message 10; user 2 has
premium until time 1000. -/
def exDb : DB :=
  { users := [sampleUser 1 false none "E", sampleUser 2 true (some 1000) "F"],
    emoji_reservations := [],
    messages := [sampleMsg 1 10 "hi"], replies := [], message_edits := [] }

/-- Concrete database for the expiry sweep: user 9 held premium until
time 10 and still holds the reservation of emoji R. -/
def c5db : DB :=
  { users := [sampleUser 9 true (some 10) "R"],
    emoji_reservations := [⟨"R", 9, 0⟩],
    messages := [], replies := [], message_edits := [] }

/-- Concrete database for C10: user 3, premium lapsed at time 10, still
holds the stale reservation of emoji F. -/
def c10db : DB :=
  { users := [sampleUser 3 true (some 10) "X"],
    emoji_reservations := [⟨"F", 3, 0⟩],
    messages := [], replies := [], message_edits := [] }

/-- Concrete database for C7: user 7 has premium recorded until time
100, long past at now = 1000000. -/
def c7db : DB :=
  { users := [sampleUser 7 true (some 100) "G"],
    emoji_reservations := [], messages := [], replies := [],
    message_edits := [] }

/-- Concrete database for C1: premium users 1 and 2 hold the
reservations of emojis A and B. -/
def c1db : DB :=
  { users := [sampleUser 1 true (some 1000) "A",
              sampleUser 2 true (some 1000) "B"],
    emoji_reservations := [⟨"A", 1, 0⟩, ⟨"B", 2, 0⟩],
    messages := [], replies := [], message_edits := [] }

/-! ### Generic list lemmas used by the verification -/

/-- The first match of a list survives any filter it satisfies, and stays
the first match of the filtered list. -/
theorem find?_filter_of_eq_some {α} {p q : α → Bool} {l : List α} {x : α}
    (h : l.find? p = some x) (hq : q x = true) :
    (l.filter q).find? p = some x := by
  induction l with
  | nil => simp at h
  | cons a t ih =>
    by_cases hpa : p a = true
    · rw [List.find?_cons_of_pos _ hpa] at h
      injection h with h
      subst h
      rw [List.filter_cons_of_pos hq, List.find?_cons_of_pos _ hpa]
    · rw [List.find?_cons_of_neg _ hpa] at h
      by_cases hqa : q a = true
      · rw [List.filter_cons_of_pos hqa, List.find?_cons_of_neg _ hpa]
        exact ih h
      · rw [List.filter_cons_of_neg (Bool.not_eq_true _ ▸ hqa)]
        exact ih h

/-- A filter of a matchless list stays matchless. -/
theorem find?_filter_of_eq_none {α} {p q : α → Bool} {l : List α}
    (h : l.find? p = none) : (l.filter q).find? p = none := by
  rw [List.find?_eq_none] at h ⊢
  intro x hx
  exact h x (List.mem_of_mem_filter hx)

/-- find? on a matchless left part of an append skips to the right part. -/
theorem find?_append_of_none {α} {p : α → Bool} {l₁ l₂ : List α}
    (h : l₁.find? p = none) : (l₁ ++ l₂).find? p = l₂.find? p := by
  induction l₁ with
  | nil => simp
  | cons a t ih =>
    by_cases hpa : p a = true
    · rw [List.find?_cons_of_pos _ hpa] at h
      exact absurd h (by simp)
    · rw [List.find?_cons_of_neg _ hpa] at h
      rw [List.cons_append, List.find?_cons_of_neg _ hpa]
      exact ih h

/-- find? commutes with a map that does not change the tested predicate. -/
theorem find?_map_comm {α} {f : α → α} {p : α → Bool}
    (hp : ∀ a, p (f a) = p a) (l : List α) :
    (l.map f).find? p = (l.find? p).map f := by
  induction l with
  | nil => simp
  | cons a t ih =>
    by_cases hpa : p a = true
    · rw [List.map_cons, List.find?_cons_of_pos _ ((hp a).trans hpa),
        List.find?_cons_of_pos _ hpa]
      simp
    · rw [List.map_cons, List.find?_cons_of_neg _ (fun hc => hpa ((hp a) ▸ hc)),
        List.find?_cons_of_neg _ hpa]
      exact ih

/-! ### Frame lemmas about the embedded operations -/

/-- UPDATE ... WHERE user_id through the lens of get_user_info, for an
update that does not touch user_id. -/
theorem updateUsers_get_user_info (db : DB) (w : Nat) (f : UserRow → UserRow)
    (hf : ∀ r, (f r).user_id = r.user_id) (u : Nat) :
    get_user_info (updateUsers db w f) u =
      (get_user_info db u).map (fun r => if r.user_id == w then f r else r) := by
  unfold get_user_info updateUsers
  exact find?_map_comm (fun a => by by_cases h : a.user_id == w <;> simp [h, hf]) _

/-- The row found by get_user_info carries the queried user_id. -/
theorem get_user_info_user_id {db : DB} {u : Nat} {usr : UserRow}
    (h : get_user_info db u = some usr) : (usr.user_id == u) = true := by
  unfold get_user_info at h
  have hp := List.find?_some h
  simpa using hp

/-- updateUsers leaves every other table alone. -/
theorem updateUsers_frame (db : DB) (w : Nat) (f : UserRow → UserRow) :
    (updateUsers db w f).emoji_reservations = db.emoji_reservations ∧
    (updateUsers db w f).messages = db.messages ∧
    (updateUsers db w f).replies = db.replies ∧
    (updateUsers db w f).message_edits = db.message_edits := by
  simp [updateUsers]

/-- A premium check that answers true performed no mutation at all. -/
theorem is_user_premium_true_frame {db : DB} {u : Nat} {now : Int}
    (h : (is_user_premium db u now).fst = true) :
    (is_user_premium db u now).snd = db := by
  cases hget : get_user_info db u with
  | none => simp [is_user_premium, hget]
  | some usr =>
    cases hpu : usr.premium_until with
    | none => simp [is_user_premium, hget, hpu]
    | some pu =>
      by_cases hnow : now > pu
      · simp [is_user_premium, hget, hpu, hnow] at h
      · simp [is_user_premium, hget, hpu, hnow]

/-- The premium check never touches the message ledger, the replies
table or the audit table. -/
theorem is_user_premium_ledger_frame (db : DB) (u : Nat) (now : Int) :
    (is_user_premium db u now).snd.messages = db.messages ∧
    (is_user_premium db u now).snd.replies = db.replies ∧
    (is_user_premium db u now).snd.message_edits = db.message_edits := by
  cases hget : get_user_info db u with
  | none => simp [is_user_premium, hget]
  | some usr =>
    cases hpu : usr.premium_until with
    | none => simp [is_user_premium, hget, hpu]
    | some pu =>
      by_cases hnow : now > pu
      · simp [is_user_premium, hget, hpu, hnow, updateUsers]
      · simp [is_user_premium, hget, hpu, hnow]

/-- The premium check either leaves the reservations table alone or
deletes exactly the rows of the checked user. -/
theorem is_user_premium_reservations (db : DB) (u : Nat) (now : Int) :
    (is_user_premium db u now).snd.emoji_reservations = db.emoji_reservations ∨
    (is_user_premium db u now).snd.emoji_reservations =
      db.emoji_reservations.filter (fun r => !(r.user_id == u)) := by
  cases hget : get_user_info db u with
  | none => left; simp [is_user_premium, hget]
  | some usr =>
    cases hpu : usr.premium_until with
    | none => left; simp [is_user_premium, hget, hpu]
    | some pu =>
      by_cases hnow : now > pu
      · right; simp [is_user_premium, hget, hpu, hnow, updateUsers]
      · left; simp [is_user_premium, hget, hpu, hnow]

/-- An update that changes neither user_id nor message_count leaves
userMessageCount alone. -/
theorem userMessageCount_updateUsers (db : DB) (w : Nat) (f : UserRow → UserRow)
    (hf : ∀ r, (f r).user_id = r.user_id)
    (hc : ∀ r, (f r).message_count = r.message_count) (v : Nat) :
    userMessageCount (updateUsers db w f) v = userMessageCount db v := by
  unfold userMessageCount
  rw [updateUsers_get_user_info db w f hf]
  cases get_user_info db v with
  | none => rfl
  | some r => by_cases hr : r.user_id = w <;> simp [hr, hc]

/-- The expired-premium path of the check in normal form: premium
columns cleared, reservations of the user deleted, verdict false. -/
theorem is_user_premium_sweep {db : DB} {u : Nat} {now : Int}
    {usr : UserRow} {pu : Int} (hget : get_user_info db u = some usr)
    (hpu : usr.premium_until = some pu) (hnow : now > pu) :
    is_user_premium db u now =
      (false, { updateUsers db u clearPremium with
        emoji_reservations :=
          db.emoji_reservations.filter (fun r => !(r.user_id == u)) }) := by
  simp [is_user_premium, hget, hpu, hnow, updateUsers]

/-- A user row without premium_until makes the check a pure read. -/
theorem is_user_premium_of_none {db : DB} {u : Nat} {usr : UserRow}
    (now : Int) (hget : get_user_info db u = some usr)
    (hpu : usr.premium_until = none) :
    is_user_premium db u now = (usr.is_premium, db) := by
  simp [is_user_premium, hget, hpu]

/-- The premium check keeps every user present (it only rewrites premium
columns), and preserves the message_count of every user. -/
theorem is_user_premium_userMessageCount (db : DB) (u v : Nat) (now : Int) :
    userMessageCount (is_user_premium db u now).snd v = userMessageCount db v := by
  cases hget : get_user_info db u with
  | none => simp [is_user_premium, hget]
  | some usr =>
    cases hpu : usr.premium_until with
    | none => simp [is_user_premium, hget, hpu]
    | some pu =>
      by_cases hnow : now > pu
      · rw [is_user_premium_sweep hget hpu hnow]
        exact userMessageCount_updateUsers db u clearPremium
          (fun r => rfl) (fun r => rfl) v
      · simp [is_user_premium, hget, hpu, hnow]

/-- After DELETE FROM emoji_reservations WHERE user_id = u, the user has
no reservation row left. -/
theorem find?_user_filter_none (rs : List Reservation) (u : Nat) :
    (rs.filter (fun r => !(r.user_id == u))).find?
      (fun r => r.user_id == u) = none := by
  rw [List.find?_eq_none]
  intro x hx
  have hmem := (List.mem_filter.mp hx).2
  simpa using hmem

/-- The premium check preserves which users exist. -/
theorem is_user_premium_isSome (db : DB) (u v : Nat) (now : Int) :
    (get_user_info (is_user_premium db u now).snd v).isSome =
      (get_user_info db v).isSome := by
  cases hget : get_user_info db u with
  | none => simp [is_user_premium, hget]
  | some usr =>
    cases hpu : usr.premium_until with
    | none => simp [is_user_premium, hget, hpu]
    | some pu =>
      by_cases hnow : now > pu
      · rw [is_user_premium_sweep hget hpu hnow]
        show (get_user_info (updateUsers db u clearPremium) v).isSome =
          (get_user_info db v).isSome
        rw [updateUsers_get_user_info db u clearPremium (fun r => rfl)]
        cases get_user_info db v <;> simp
      · simp [is_user_premium, hget, hpu, hnow]

/-- register_user never touches the message ledger. -/
theorem register_user_messages (db : DB) (u : Nat)
    (username first_name last_name : String) (now : Int) :
    (register_user db u username first_name last_name now).messages =
      db.messages := by
  by_cases h : (get_user_info db u).isSome = true <;>
    simp [register_user, h, updateUsers]

/-- After register_user the user row exists. -/
theorem register_user_isSome (db : DB) (u : Nat)
    (username first_name last_name : String) (now : Int) :
    (get_user_info (register_user db u username first_name last_name now)
      u).isSome = true := by
  by_cases h : (get_user_info db u).isSome = true
  · obtain ⟨r, hr⟩ := Option.isSome_iff_exists.mp h
    simp only [register_user, h, if_true]
    rw [updateUsers_get_user_info db u (fun r =>
      { r with username := username, first_name := first_name,
               last_name := last_name, last_activity := some now })
      (fun r => rfl), hr]
    simp
  · have hnone : get_user_info db u = none := by
      cases hgu : get_user_info db u with
      | none => rfl
      | some r => rw [hgu] at h; simp at h
    simp only [register_user, h, if_false]
    show ((db.users ++ [freshUser u username first_name last_name now]).find?
      (fun r => r.user_id == u)).isSome = true
    rw [find?_append_of_none hnone]
    rw [List.find?_cons_of_pos _ (by simp [freshUser])]
    rfl

/-- register_user does not change the observed message_count of the
registered user (a fresh row starts at zero, matching the absent-row
reading of the counter). -/
theorem register_user_userMessageCount (db : DB) (u : Nat)
    (username first_name last_name : String) (now : Int) :
    userMessageCount (register_user db u username first_name last_name now) u
      = userMessageCount db u := by
  by_cases h : (get_user_info db u).isSome = true
  · simp only [register_user, h, if_true]
    exact userMessageCount_updateUsers db u (fun r =>
      { r with username := username, first_name := first_name,
               last_name := last_name, last_activity := some now })
      (fun r => rfl) (fun r => rfl) u
  · have hnone : get_user_info db u = none := by
      cases hgu : get_user_info db u with
      | none => rfl
      | some r => rw [hgu] at h; simp at h
    simp only [register_user, h, if_false]
    unfold userMessageCount
    rw [hnone]
    show (match ((db.users ++
      [freshUser u username first_name last_name now]).find?
      (fun r => r.user_id == u)) with
      | none => 0
      | some usr => usr.message_count) = 0
    rw [find?_append_of_none hnone]
    rw [List.find?_cons_of_pos _ (by simp [freshUser])]
    rfl

/-- The message_count bump of log_message adds one to the counter of a
present user. -/
theorem userMessageCount_bump (db : DB) (u : Nat) (now : Int)
    (hus : (get_user_info db u).isSome = true) :
    userMessageCount (updateUsers db u (fun r =>
      { r with message_count := r.message_count + 1,
               last_activity := some now })) u =
      userMessageCount db u + 1 := by
  obtain ⟨r, hr⟩ := Option.isSome_iff_exists.mp hus
  have hrid : r.user_id = u := by simpa using get_user_info_user_id hr
  unfold userMessageCount
  rw [updateUsers_get_user_info db u (fun r =>
    { r with message_count := r.message_count + 1,
             last_activity := some now }) (fun r => rfl), hr]
  simp [hrid]

/-- The exact ledger effect of log_message: one appended row. -/
theorem log_message_messages (db : DB) (u cmid : Nat) (text : String)
    (reply_to : Option Nat) (emoji_used : Option String) (now : Int) :
    (log_message db u cmid text reply_to emoji_used now).messages =
      db.messages ++
        [{ user_id := u, channel_message_id := cmid, text := text,
           timestamp := now, reply_to := reply_to,
           is_reply := reply_to.isSome, emoji_used := emoji_used,
           is_edited := false, is_deleted := false, edit_count := 0,
           last_edit_time := none }] := by
  cases reply_to <;> simp [log_message, updateUsers]

/-- markDeleted never changes the key column. -/
theorem markDeleted_cmid (mid : Nat) (r : MessageRow) :
    (markDeleted mid r).channel_message_id = r.channel_message_id := by
  unfold markDeleted; split <;> rfl

/-- markDeleted never changes the owner column. -/
theorem markDeleted_user_id (mid : Nat) (r : MessageRow) :
    (markDeleted mid r).user_id = r.user_id := by
  unfold markDeleted; split <;> rfl

/-- markDeleted never changes the text column. -/
theorem markDeleted_text (mid : Nat) (r : MessageRow) :
    (markDeleted mid r).text = r.text := by
  unfold markDeleted; split <;> rfl

/-- applyEdit never changes the key column. -/
theorem applyEdit_cmid (mid : Nat) (t : String) (now : Int) (r : MessageRow) :
    (applyEdit mid t now r).channel_message_id = r.channel_message_id := by
  unfold applyEdit; split <;> rfl

/-- applyEdit never changes the deleted flag. -/
theorem applyEdit_is_deleted (mid : Nat) (t : String) (now : Int)
    (r : MessageRow) :
    (applyEdit mid t now r).is_deleted = r.is_deleted := by
  unfold applyEdit; split <;> rfl

/-! ### The claims -/

/-- C4: for every recorded message and every user other than its owner,
edit and delete return the not-owner verdict (False) and leave the whole
database state unchanged (text, edit count, deleted flag, edit history,
user counters). -/
theorem c4_ownership_gate (db : DB) (u o mid : Nat) (t : String)
    (now now2 : Int) (howner : get_message_owner db mid = some o)
    (hne : o ≠ u) :
    edit_message db u mid t now = (false, db) ∧
    delete_message db u mid now2 = (false, db) := by
  have hmo : is_message_owner db u mid = false := by
    simp [is_message_owner, howner]
    exact hne
  constructor
  · simp [edit_message, hmo]
  · simp [delete_message, hmo]

/-- Witness for C4: user 2 cannot edit or delete message 10 of user 1. -/
theorem c4_witness :
    get_message_owner exDb 10 = some 1 ∧ (1 : Nat) ≠ 2 ∧
    edit_message exDb 2 10 "x" 5 = (false, exDb) ∧
    delete_message exDb 2 10 6 = (false, exDb) :=
  ⟨by decide, by decide,
   (c4_ownership_gate exDb 2 1 10 "x" 5 6 (by decide) (by decide)).1,
   (c4_ownership_gate exDb 2 1 10 "x" 5 6 (by decide) (by decide)).2⟩

/-- C9: an edit by the owner whose new text equals the current text of
the message reports success and is a complete no-op: the database,
including the edit-history table, the message counters and the user
counters, is returned unchanged. -/
theorem c9_noop_edit (db : DB) (u mid : Nat) (s : String) (now : Int)
    (howner : is_message_owner db u mid = true)
    (htext : message_text db mid = some s) :
    edit_message db u mid s now = (true, db) := by
  simp [edit_message, howner, htext]

/-- Witness for C9 on the concrete database. -/
theorem c9_witness :
    is_message_owner exDb 1 10 = true ∧ message_text exDb 10 = some "hi" ∧
    edit_message exDb 1 10 "hi" 5 = (true, exDb) :=
  ⟨by decide, by decide, c9_noop_edit exDb 1 10 "hi" 5 (by decide) (by decide)⟩

/-- C2 counterexample: recording a second message under the already
recorded channel_message_id 10 does not fail and writes a second ledger
row, so the ledger does not keep at most one row per external id. -/
theorem c2_counterexample :
    msgRowCount exDb 10 = 1 ∧
    msgRowCount (log_message exDb 2 10 "again" none none 8) 10 = 2 := by
  decide

/-- C2 amended: log_message never checks for a duplicate external id:
it always appends exactly one new ledger row, even when the
channel_message_id is already recorded, so the row count for that id
always grows by one. -/
theorem c2_amended (db : DB) (u cmid : Nat) (text : String)
    (reply_to : Option Nat) (emoji_used : Option String) (now : Int) :
    (log_message db u cmid text reply_to emoji_used now).messages =
      db.messages ++
        [{ user_id := u, channel_message_id := cmid, text := text,
           timestamp := now, reply_to := reply_to,
           is_reply := reply_to.isSome, emoji_used := emoji_used,
           is_edited := false, is_deleted := false, edit_count := 0,
           last_edit_time := none }] ∧
    msgRowCount (log_message db u cmid text reply_to emoji_used now) cmid =
      msgRowCount db cmid + 1 := by
  constructor
  · cases reply_to <;> simp [log_message, updateUsers]
  · cases reply_to <;>
      simp [log_message, msgRowCount, updateUsers, List.filter_append]

/-- C8 counterexample: with one older admission at time 0 stretching the
60-second history, six calls inside the 3-second span from 55 to 57 are
all admitted, so the limiter does not reject the 6th admission within a
5-second span as the claim demands. -/
theorem c8_counterexample :
    (runCalls [0, 55, 55, 56, 56, 57, 57] []).fst =
      [true, true, true, true, true, true, true] := by decide

set_option maxRecDepth 4000 in
/-- C8 amended: the burst test only fires when the oldest entry of the
whole 60-second history is under 5 seconds old, so it is not a sliding
5-second window; the concrete window scenarios hold from an empty
history: the 6th call within 5 seconds is rejected, a later call after
the burst ages past 5 seconds is admitted again, the 31st call within
one minute is rejected, and a call after the minute elapses is admitted
again. -/
theorem c8_amended :
    (runCalls [0, 1, 2, 3, 4, 4] []).fst =
      [true, true, true, true, true, false] ∧
    (runCalls [0, 1, 2, 3, 4, 4, 10] []).fst =
      [true, true, true, true, true, false, true] ∧
    (runCalls ((List.range 30).map (fun i => (2 * (i : Int))) ++ [59])
        []).fst.getLast? = some false ∧
    (runCalls ((List.range 30).map (fun i => (2 * (i : Int))) ++ [59, 120])
        []).fst.getLast? = some true := by decide

/-- C5: a premium check on a user whose premium_until lies in the past
answers false, and that same call clears the premium flag, clears
premium_until, and releases any emoji reservation held by the user (the
owner of that emoji becomes absent); repeating the check answers false
again and mutates nothing further. The well-formedness hypothesis is the
schema constraint pair of emoji_reservations (emoji PRIMARY KEY,
user_id UNIQUE). -/
theorem c5_premium_expiry_sweep (db : DB) (u : Nat) (usr : UserRow)
    (pu now : Int) (hwf : ReservationsWF db.emoji_reservations)
    (hget : get_user_info db u = some usr)
    (hpu : usr.premium_until = some pu) (hpast : pu < now) :
    (is_user_premium db u now).fst = false ∧
    get_user_info (is_user_premium db u now).snd u =
      some { usr with is_premium := false, premium_until := none } ∧
    reservationOf (is_user_premium db u now).snd u = none ∧
    (∀ e, ownerOf db e = some u →
      ownerOf (is_user_premium db u now).snd e = none) ∧
    is_user_premium (is_user_premium db u now).snd u now =
      (false, (is_user_premium db u now).snd) := by
  have hnow : now > pu := hpast
  have hu_id : (usr.user_id == u) = true := get_user_info_user_id hget
  have hsweep := is_user_premium_sweep hget hpu hnow
  have hget2 : get_user_info (is_user_premium db u now).snd u =
      some { usr with is_premium := false, premium_until := none } := by
    rw [hsweep]
    show get_user_info (updateUsers db u clearPremium) u =
      some { usr with is_premium := false, premium_until := none }
    rw [updateUsers_get_user_info db u clearPremium (fun r => rfl), hget]
    have husr : usr.user_id = u := by simpa using hu_id
    simp [husr, clearPremium]
  refine ⟨by rw [hsweep], hget2, ?_, ?_, ?_⟩
  · rw [hsweep]
    show ((db.emoji_reservations.filter
        (fun r => !(r.user_id == u))).find?
        (fun r => r.user_id == u)).map (fun r => r.emoji) = none
    rw [find?_user_filter_none]
    rfl
  · intro e he
    obtain ⟨r0, hr0, hr0u⟩ := Option.map_eq_some'.mp he
    rw [hsweep]
    show ((db.emoji_reservations.filter
        (fun r => !(r.user_id == u))).find?
        (fun r => r.emoji == e)).map (fun r => r.user_id) = none
    cases hf : (db.emoji_reservations.filter
        (fun r => !(r.user_id == u))).find? (fun r => r.emoji == e) with
    | none => rfl
    | some r1 =>
      exfalso
      have hr1mem := List.mem_of_mem_filter (List.mem_of_find?_eq_some hf)
      have hr1q := (List.mem_filter.mp (List.mem_of_find?_eq_some hf)).2
      have hr1e : r1.emoji = e := by
        have := List.find?_some hf
        simpa using this
      have hr0mem := List.mem_of_find?_eq_some hr0
      have hr0e : r0.emoji = e := by
        have := List.find?_some hr0
        simpa using this
      have heq : r0 = r1 :=
        List.inj_on_of_nodup_map hwf.1 hr0mem hr1mem (hr0e.trans hr1e.symm)
      rw [← heq] at hr1q
      rw [hr0u] at hr1q
      simp at hr1q
  · rw [is_user_premium_of_none now hget2 rfl]

/-- Witness for C5: checking user 9 at time 100 answers false and frees
emoji R. -/
theorem c5_witness :
    ReservationsWF c5db.emoji_reservations ∧ (10 : Int) < 100 ∧
    (is_user_premium c5db 9 100).fst = false ∧
    ownerOf (is_user_premium c5db 9 100).snd "R" = none := by
  have h := c5_premium_expiry_sweep c5db 9 (sampleUser 9 true (some 10) "R")
    10 100 (by decide) (by decide) (by decide) (by decide)
  exact ⟨by decide, by decide, h.1, h.2.2.2.1 "R" (by decide)⟩

/-- C10 counterexample: at time 100 user 3 counts as non-premium (the
check answers false), the emoji Z passes validation, and
set_user_emoji_with_reservation returns True — yet the
emoji_reservations table does change: the lazy expiry sweep embedded in
the premium check deletes the stale row of user 3, refuting the claim
that the table is left completely unchanged. -/
theorem c10_counterexample :
    (is_user_premium c10db 3 100).fst = false ∧
    validate_emoji "Z" = true ∧
    (set_user_emoji_with_reservation c10db 3 "Z" 100).fst = true ∧
    (set_user_emoji_with_reservation c10db 3 "Z" 100).snd.emoji_reservations ≠
      c10db.emoji_reservations := by decide

/-- C10 amended: for a user who fails the premium check,
set_user_emoji_with_reservation returns True, writes the emoji into the
row of the user, and acquires no reservation; the reservations table is
unchanged except that the lazy expiry sweep inside the premium check may
delete the stale rows of the caller — rows of other users are never
touched. -/
theorem c10_amended (db : DB) (u : Nat) (e : String) (now : Int)
    (hval : validate_emoji e = true)
    (hprem : (is_user_premium db u now).fst = false) :
    (set_user_emoji_with_reservation db u e now).fst = true ∧
    ((get_user_info db u).isSome →
      ∃ usr2, get_user_info (set_user_emoji_with_reservation db u e now).snd u
          = some usr2 ∧ usr2.custom_emoji = e) ∧
    ((set_user_emoji_with_reservation db u e now).snd.emoji_reservations =
        db.emoji_reservations ∨
      (set_user_emoji_with_reservation db u e now).snd.emoji_reservations =
        db.emoji_reservations.filter (fun r => !(r.user_id == u))) := by
  have hres : set_user_emoji_with_reservation db u e now =
      (true, updateUsers (is_user_premium db u now).snd u
        (applyEmoji e
          (if PREMIUM_EMOJIS.contains e then "premium" else "standard"))) := by
    simp [set_user_emoji_with_reservation, hprem]
  refine ⟨by rw [hres], ?_, ?_⟩
  · intro hus
    have hsome : (get_user_info (is_user_premium db u now).snd u).isSome :=
      by rw [is_user_premium_isSome]; exact hus
    obtain ⟨usr1, hget1⟩ := Option.isSome_iff_exists.mp hsome
    have hu_id : (usr1.user_id == u) = true := get_user_info_user_id hget1
    refine ⟨applyEmoji e
      (if PREMIUM_EMOJIS.contains e then "premium" else "standard") usr1,
      ?_, rfl⟩
    rw [hres]
    show get_user_info (updateUsers (is_user_premium db u now).snd u
        (applyEmoji e
          (if PREMIUM_EMOJIS.contains e then "premium" else "standard"))) u =
      some (applyEmoji e
        (if PREMIUM_EMOJIS.contains e then "premium" else "standard") usr1)
    rw [updateUsers_get_user_info (is_user_premium db u now).snd u
      (applyEmoji e
        (if PREMIUM_EMOJIS.contains e then "premium" else "standard"))
      (fun r => rfl), hget1]
    have husr : usr1.user_id = u := by simpa using hu_id
    simp [husr]
  · rw [hres]
    show (is_user_premium db u now).snd.emoji_reservations =
        db.emoji_reservations ∨
      (is_user_premium db u now).snd.emoji_reservations =
        db.emoji_reservations.filter (fun r => !(r.user_id == u))
    exact is_user_premium_reservations db u now

/-- Witness for C10 at the concrete database of the counterexample. -/
theorem c10_witness :
    validate_emoji "Z" = true ∧ (is_user_premium c10db 3 100).fst = false ∧
    (set_user_emoji_with_reservation c10db 3 "Z" 100).fst = true :=
  ⟨by decide, by decide,
   (c10_amended c10db 3 "Z" 100 (by decide) (by decide)).1⟩

/-- C7 counterexample: granting one day to user 7, whose recorded
premium_until = 100 lies far in the past at now = 1000000, yields
premium_until = 100 + 86400 = 86500 — not max(now, current) + 1 day =
1086400: an expired subscription is extended from its old expiry
timestamp, not restarted from now. -/
theorem c7_counterexample :
    (get_user_info (admin_premium c7db 7 1 1000000) 7).map
      (fun r => r.premium_until) = some (some 86500) ∧
    (86500 : Int) ≠ max 1000000 100 + 1 * 86400 := by decide

/-- C7 amended: through the admin command, a grant of d <= 0 days
revokes premium immediately (flag and premium_until cleared) and
deletes the reservations of the user; a grant of d > 0 days marks the
user premium and sets premium_until to the recorded premium_until —
even when it lies in the past — plus d days, falling back to now + d
days only when no premium_until is recorded: stacking never restarts an
expired subscription from now. -/
theorem c7_amended (db : DB) (u : Nat) (usr : UserRow) (days now : Int)
    (hget : get_user_info db u = some usr) :
    (days ≤ 0 →
      get_user_info (admin_premium db u days now) u =
        some (clearPremium usr) ∧
      reservationOf (admin_premium db u days now) u = none) ∧
    (0 < days →
      get_user_info (admin_premium db u days now) u =
        some (setPremiumUntil
          (usr.premium_until.getD now + days * 86400) usr)) := by
  have husr : usr.user_id = u := by simpa using get_user_info_user_id hget
  constructor
  · intro hd
    have hrev : admin_premium db u days now =
        { updateUsers db u clearPremium with
          emoji_reservations :=
            db.emoji_reservations.filter (fun r => !(r.user_id == u)) } := by
      simp [admin_premium, hget, hd, updateUsers]
    constructor
    · rw [hrev]
      show get_user_info (updateUsers db u clearPremium) u =
        some (clearPremium usr)
      rw [updateUsers_get_user_info db u clearPremium (fun r => rfl), hget]
      simp [husr]
    · rw [hrev]
      show ((db.emoji_reservations.filter (fun r => !(r.user_id == u))).find?
        (fun r => r.user_id == u)).map (fun r => r.emoji) = none
      rw [find?_user_filter_none]
      rfl
  · intro hd
    have hd2 : ¬(days ≤ 0) := by omega
    have hadd : admin_premium db u days now = add_premium_days db u days now :=
      by simp [admin_premium, hget, hd2]
    rw [hadd]
    have hnew : add_premium_days db u days now =
        updateUsers db u (setPremiumUntil
          (usr.premium_until.getD now + days * 86400)) := by
      cases hpu : usr.premium_until <;> simp [add_premium_days, hget, hpu]
    rw [hnew, updateUsers_get_user_info db u (setPremiumUntil
      (usr.premium_until.getD now + days * 86400)) (fun r => rfl), hget]
    simp [husr]

/-- Witness for C7: the positive branch at the counterexample input. -/
theorem c7_witness :
    get_user_info c7db 7 = some (sampleUser 7 true (some 100) "G") ∧
    (0 : Int) < 1 ∧
    get_user_info (admin_premium c7db 7 1 1000000) 7 =
      some (setPremiumUntil ((sampleUser 7 true
        (some 100) "G").premium_until.getD 1000000 + 1 * 86400)
        (sampleUser 7 true (some 100) "G")) :=
  ⟨by decide, by decide,
   (c7_amended c7db 7 (sampleUser 7 true (some 100) "G") 1 1000000
     (by decide)).2 (by decide)⟩

/-- C6: the external send is the commit point of the text-message relay
path: when the gateway call raises, no ledger row is written and the
message_count of the sender is unchanged (only the registration upsert
has run); when it returns id emid, exactly one ledger row keyed by emid
is appended and the message_count of the sender grows by one. -/
theorem c6_record_only_on_success (db : DB) (u : Nat)
    (username first_name last_name text : String) (emid : Nat) (now : Int) :
    (handle_new_message_text db u username first_name last_name text
        (Except.error ()) now).messages = db.messages ∧
    userMessageCount (handle_new_message_text db u username first_name
        last_name text (Except.error ()) now) u = userMessageCount db u ∧
    (handle_new_message_text db u username first_name last_name text
        (Except.ok emid) now).messages =
      db.messages ++
        [{ user_id := u, channel_message_id := emid, text := text,
           timestamp := now, reply_to := none, is_reply := false,
           emoji_used := some (get_user_emoji (register_user db u username
             first_name last_name now) u),
           is_edited := false, is_deleted := false, edit_count := 0,
           last_edit_time := none }] ∧
    msgRowCount (handle_new_message_text db u username first_name last_name
        text (Except.ok emid) now) emid = msgRowCount db emid + 1 ∧
    userMessageCount (handle_new_message_text db u username first_name
        last_name text (Except.ok emid) now) u = userMessageCount db u + 1 := by
  simp only [handle_new_message_text]
  refine ⟨register_user_messages db u username first_name last_name now,
    register_user_userMessageCount db u username first_name last_name now,
    ?_, ?_, ?_⟩
  · rw [(is_user_premium_ledger_frame _ u now).1,
      (is_user_premium_ledger_frame _ u now).1,
      log_message_messages, register_user_messages]
    rfl
  · unfold msgRowCount
    rw [(is_user_premium_ledger_frame _ u now).1,
      (is_user_premium_ledger_frame _ u now).1,
      log_message_messages, register_user_messages]
    simp [List.filter_append]
  · rw [is_user_premium_userMessageCount, is_user_premium_userMessageCount]
    have hb := userMessageCount_bump _ u now
      (register_user_isSome db u username first_name last_name now)
    calc userMessageCount (log_message
          (register_user db u username first_name last_name now) u emid text
          none (some (get_user_emoji
            (register_user db u username first_name last_name now) u)) now) u
        = userMessageCount
            (register_user db u username first_name last_name now) u + 1 := hb
      _ = userMessageCount db u + 1 := by
          rw [register_user_userMessageCount]

/-- C3 counterexample: after a successful delete of message 10 by its
owner, a second delete again reports success (True, not an
already-deleted result) and mutates: the delete_count of the owner
reaches 2; and an edit of the deleted message also reports success and
rewrites its text — so a delete does not freeze the message. -/
theorem c3_counterexample :
    (delete_message exDb 1 10 0).fst = true ∧
    (delete_message (delete_message exDb 1 10 0).snd 1 10 1).fst = true ∧
    userDeleteCount
      (delete_message (delete_message exDb 1 10 0).snd 1 10 1).snd 1 = 2 ∧
    (edit_message (delete_message exDb 1 10 0).snd 1 10 "bye" 2).fst = true ∧
    message_text
      (edit_message (delete_message exDb 1 10 0).snd 1 10 "bye" 2).snd 10 =
      some "bye" := by decide

/-- C3 amended: the deleted flag is monotone — once a delete succeeds
every row keyed by the message stays deleted under further deletes and
edits — but neither operation reports an already-deleted result or
blocks: a second delete by the owner returns True again, and an edit by
the owner of the deleted message returns True and rewrites the text. -/
theorem c3_amended (db : DB) (u mid : Nat) (s t : String)
    (now1 now2 now3 : Int)
    (howner : is_message_owner db u mid = true)
    (htext : message_text db mid = some s) (hne : t ≠ s) :
    (delete_message db u mid now1).fst = true ∧
    (∀ x ∈ (delete_message db u mid now1).snd.messages,
        x.channel_message_id = mid → x.is_deleted = true) ∧
    (delete_message (delete_message db u mid now1).snd u mid now2).fst
      = true ∧
    (edit_message (delete_message db u mid now1).snd u mid t now3).fst
      = true ∧
    message_text (edit_message
      (delete_message db u mid now1).snd u mid t now3).snd mid = some t ∧
    (∀ x ∈ (edit_message
        (delete_message db u mid now1).snd u mid t now3).snd.messages,
        x.channel_message_id = mid → x.is_deleted = true) := by
  have h0 : get_message_owner db mid = some u := by
    have := howner
    unfold is_message_owner at this
    simpa using this
  obtain ⟨r0, hr0, hr0u⟩ := Option.map_eq_some'.mp h0
  have hdel : delete_message db u mid now1 =
      (true, updateUsers { db with
        messages := db.messages.map (markDeleted mid) } u
        (bumpDeleteCount now1)) := by
    simp [delete_message, howner]
  have hDmsg : (delete_message db u mid now1).snd.messages =
      db.messages.map (markDeleted mid) := by rw [hdel]; rfl
  have hfind : (delete_message db u mid now1).snd.messages.find?
      (fun r => r.channel_message_id == mid) = some (markDeleted mid r0) := by
    rw [hDmsg]
    rw [find?_map_comm (fun a => by rw [markDeleted_cmid]) db.messages, hr0]
    rfl
  have how2 : is_message_owner (delete_message db u mid now1).snd u mid
      = true := by
    unfold is_message_owner get_message_owner
    rw [hfind]
    simp [markDeleted_user_id, hr0u]
  have htext2 : message_text (delete_message db u mid now1).snd mid
      = some s := by
    unfold message_text
    rw [hfind]
    have hs : r0.text = s := by
      unfold message_text at htext
      rw [hr0] at htext
      simpa using htext
    simp [markDeleted_text, hs]
  have hdeleted : ∀ x ∈ (delete_message db u mid now1).snd.messages,
      x.channel_message_id = mid → x.is_deleted = true := by
    rw [hDmsg]
    intro x hx hxm
    rcases List.mem_map.mp hx with ⟨y, hy, rfl⟩
    by_cases hc : (y.channel_message_id == mid) = true
    · simp [markDeleted, hc]
    · exfalso
      apply hc
      rw [markDeleted_cmid] at hxm
      simp [hxm]
  have hst : (s == t) = false := by
    simp [Ne.symm hne]
  have hefst : (edit_message
      (delete_message db u mid now1).snd u mid t now3).fst = true := by
    simp [edit_message, how2, htext2, hst]
  have hEmsg : (edit_message
      (delete_message db u mid now1).snd u mid t now3).snd.messages =
      (delete_message db u mid now1).snd.messages.map (applyEdit mid t now3)
      := by
    simp [edit_message, how2, htext2, hst, updateUsers]
  have hsecond : ∀ db2 : DB, is_message_owner db2 u mid = true →
      (delete_message db2 u mid now2).fst = true := by
    intro db2 h2
    simp [delete_message, h2]
  refine ⟨by simp [delete_message, howner], hdeleted,
    hsecond _ how2, hefst, ?_, ?_⟩
  · unfold message_text
    rw [hEmsg]
    rw [find?_map_comm (fun a => by rw [applyEdit_cmid]) _, hfind]
    have hkey : ((markDeleted mid r0).channel_message_id == mid) = true := by
      have := List.find?_some hfind
      simpa using this
    simp [applyEdit, hkey]
  · rw [hEmsg]
    intro x hx hxm
    rcases List.mem_map.mp hx with ⟨y, hy, rfl⟩
    rw [applyEdit_is_deleted]
    apply hdeleted y hy
    rw [applyEdit_cmid] at hxm
    exact hxm

/-- Witness for C3 on the concrete database: owner 1 deletes message 10
and the follow-up operations still succeed while the flag stays set. -/
theorem c3_witness :
    is_message_owner exDb 1 10 = true ∧ message_text exDb 10 = some "hi" ∧
    ("bye" : String) ≠ "hi" ∧
    (delete_message exDb 1 10 0).fst = true ∧
    (edit_message (delete_message exDb 1 10 0).snd 1 10 "bye" 2).fst
      = true := by
  have h := c3_amended exDb 1 10 "hi" "bye" 0 1 2 (by decide) (by decide)
    (by decide)
  exact ⟨by decide, by decide, by decide, h.1, h.2.2.2.1⟩

/-- C1 counterexample: premium user 1 holds emoji A; reserving emoji B,
already held by user 2, returns the conflict result False and leaves the
owner of B unchanged — but the prior reservation of user 1 has been
deleted before the conflict check and is not restored, so the registry
does not stay unchanged on conflict. -/
theorem c1_counterexample :
    reservationOf c1db 1 = some "A" ∧
    (set_user_emoji_with_reservation c1db 1 "B" 0).fst = false ∧
    ownerOf (set_user_emoji_with_reservation c1db 1 "B" 0).snd "B"
      = some 2 ∧
    reservationOf (set_user_emoji_with_reservation c1db 1 "B" 0).snd 1
      = none := by decide

/-- C1 amended: for a premium caller, when the emoji is reserved by a
different user the call returns the conflict result False and the owner
of the emoji is unchanged, but the prior reservation of the caller has
already been released and does not survive; when the emoji is free or
held by the caller, the call succeeds, releases the prior reservation,
installs the new one, and the registry stays well-formed, so at any
instant at most one user holds the emoji. The well-formedness
hypothesis is the schema constraint pair of emoji_reservations. -/
theorem c1_amended (db : DB) (u : Nat) (e : String) (now : Int)
    (hwf : ReservationsWF db.emoji_reservations)
    (hprem : (is_user_premium db u now).fst = true) :
    (∀ o, ownerOf db e = some o → o ≠ u →
      (set_user_emoji_with_reservation db u e now).fst = false ∧
      ownerOf (set_user_emoji_with_reservation db u e now).snd e = some o ∧
      reservationOf (set_user_emoji_with_reservation db u e now).snd u
        = none) ∧
    ((ownerOf db e = none ∨ ownerOf db e = some u) →
      (set_user_emoji_with_reservation db u e now).fst = true ∧
      ownerOf (set_user_emoji_with_reservation db u e now).snd e = some u ∧
      reservationOf (set_user_emoji_with_reservation db u e now).snd u
        = some e ∧
      ReservationsWF
        (set_user_emoji_with_reservation db u e now).snd.emoji_reservations)
      := by
  have hframe : (is_user_premium db u now).snd = db :=
    is_user_premium_true_frame hprem
  constructor
  · intro o ho hne
    obtain ⟨r0, hr0, hr0u⟩ := Option.map_eq_some'.mp ho
    have hq : (!(r0.user_id == u)) = true := by
      rw [hr0u]
      simp [hne]
    have hc : (db.emoji_reservations.filter
        (fun r => !(r.user_id == u))).find? (fun r => r.emoji == e)
        = some r0 := find?_filter_of_eq_some hr0 hq
    have hcall : set_user_emoji_with_reservation db u e now =
        (false, { db with emoji_reservations :=
          db.emoji_reservations.filter (fun r => !(r.user_id == u)) }) := by
      simp [set_user_emoji_with_reservation, hprem, hframe, hc]
    refine ⟨by rw [hcall], ?_, ?_⟩
    · rw [hcall]
      show ((db.emoji_reservations.filter
          (fun r => !(r.user_id == u))).find?
          (fun r => r.emoji == e)).map (fun r => r.user_id) = some o
      rw [hc]
      simp [hr0u]
    · rw [hcall]
      show ((db.emoji_reservations.filter
          (fun r => !(r.user_id == u))).find?
          (fun r => r.user_id == u)).map (fun r => r.emoji) = none
      rw [find?_user_filter_none]
      rfl
  · intro hfree
    have hnone : (db.emoji_reservations.filter
        (fun r => !(r.user_id == u))).find? (fun r => r.emoji == e)
        = none := by
      cases hfree with
      | inl h => exact find?_filter_of_eq_none (Option.map_eq_none'.mp h)
      | inr h =>
        obtain ⟨r0, hr0, hr0u⟩ := Option.map_eq_some'.mp h
        cases hf : (db.emoji_reservations.filter
            (fun r => !(r.user_id == u))).find? (fun r => r.emoji == e) with
        | none => rfl
        | some r1 =>
          exfalso
          have hr1memf := List.mem_of_find?_eq_some hf
          have hr1mem := List.mem_of_mem_filter hr1memf
          have hr1q := (List.mem_filter.mp hr1memf).2
          have hr1e : r1.emoji = e := by
            have := List.find?_some hf
            simpa using this
          have hr0mem := List.mem_of_find?_eq_some hr0
          have hr0e : r0.emoji = e := by
            have := List.find?_some hr0
            simpa using this
          have heq : r0 = r1 :=
            List.inj_on_of_nodup_map hwf.1 hr0mem hr1mem
              (hr0e.trans hr1e.symm)
          rw [← heq, hr0u] at hr1q
          simp at hr1q
    have hcall : set_user_emoji_with_reservation db u e now =
        (true, updateUsers
          { db with
            emoji_reservations :=
              (db.emoji_reservations.filter
                  (fun r => !(r.user_id == u))).filter
                (fun r => !(r.emoji == e || r.user_id == u)) ++
              [{ emoji := e, user_id := u, reserved_at := now }] } u
          (applyEmoji e
            (if PREMIUM_EMOJIS.contains e then "premium"
              else "standard"))) := by
      simp [set_user_emoji_with_reservation, hprem, hframe, hnone]
    have hsub : List.Sublist
        ((db.emoji_reservations.filter
          (fun r => !(r.user_id == u))).filter
            (fun r => !(r.emoji == e || r.user_id == u)))
        db.emoji_reservations :=
      (List.filter_sublist _).trans (List.filter_sublist _)
    have hkept_e : ((db.emoji_reservations.filter
        (fun r => !(r.user_id == u))).filter
          (fun r => !(r.emoji == e || r.user_id == u))).find?
        (fun r => r.emoji == e) = none := by
      rw [List.find?_eq_none]
      intro x hx hcontra
      have hq2 := (List.mem_filter.mp hx).2
      simp [hcontra] at hq2
    have hkept_u : ((db.emoji_reservations.filter
        (fun r => !(r.user_id == u))).filter
          (fun r => !(r.emoji == e || r.user_id == u))).find?
        (fun r => r.user_id == u) = none := by
      rw [List.find?_eq_none]
      intro x hx hcontra
      have hq2 := (List.mem_filter.mp hx).2
      simp [hcontra] at hq2
    refine ⟨by rw [hcall], ?_, ?_, ?_⟩
    · rw [hcall]
      show ((((db.emoji_reservations.filter
          (fun r => !(r.user_id == u))).filter
            (fun r => !(r.emoji == e || r.user_id == u))) ++
          [({ emoji := e, user_id := u, reserved_at := now } :
            Reservation)]).find?
          (fun r => r.emoji == e)).map (fun r => r.user_id) = some u
      rw [find?_append_of_none hkept_e]
      simp
    · rw [hcall]
      show ((((db.emoji_reservations.filter
          (fun r => !(r.user_id == u))).filter
            (fun r => !(r.emoji == e || r.user_id == u))) ++
          [({ emoji := e, user_id := u, reserved_at := now } :
            Reservation)]).find?
          (fun r => r.user_id == u)).map (fun r => r.emoji) = some e
      rw [find?_append_of_none hkept_u]
      simp
    · rw [hcall]
      show ReservationsWF ((((db.emoji_reservations.filter
          (fun r => !(r.user_id == u))).filter
            (fun r => !(r.emoji == e || r.user_id == u))) ++
          [({ emoji := e, user_id := u, reserved_at := now } :
            Reservation)]))
      constructor
      · rw [List.map_append]
        refine List.Nodup.append ?_ (List.nodup_singleton _) ?_
        · exact List.Nodup.sublist (hsub.map (fun r => r.emoji)) hwf.1
        · intro a ha hae
          simp only [List.map_cons, List.map_nil, List.mem_singleton] at hae
          subst hae
          rcases List.mem_map.mp ha with ⟨y, hy, hye⟩
          have hq2 := (List.mem_filter.mp hy).2
          simp [hye] at hq2
      · rw [List.map_append]
        refine List.Nodup.append ?_ (List.nodup_singleton _) ?_
        · exact List.Nodup.sublist (hsub.map (fun r => r.user_id)) hwf.2
        · intro a ha hae
          simp only [List.map_cons, List.map_nil, List.mem_singleton] at hae
          subst hae
          rcases List.mem_map.mp ha with ⟨y, hy, hye⟩
          have hq2 := (List.mem_filter.mp hy).2
          simp [hye] at hq2

/-- Witness for C1: the conflict branch at the concrete database. -/
theorem c1_witness :
    ReservationsWF c1db.emoji_reservations ∧
    (is_user_premium c1db 1 0).fst = true ∧
    (set_user_emoji_with_reservation c1db 1 "B" 0).fst = false := by
  have h := c1_amended c1db 1 "B" 0 (by decide) (by decide)
  exact ⟨by decide, by decide, (h.1 2 (by decide) (by decide)).1⟩

end AnonBot
